import Mathlib

/-!
Shallow embedding of the session/transport core of the lldap-cli client
(`src/client.ts`, class `LldapClient`), together with theorems settling the
frozen claims about it.

Modelling conventions:
* JS strings are Lean `String`s; character-level work happens on `List Char`.
* Machine time (`Date.now()`, epoch milliseconds) is an `Int` parameter `now`.
* `fetch` and friends are abstracted as explicit outcome parameters: a model
  function receives the outcome the network would have produced and performs
  exactly the control flow the source performs on it.
* `atob` + `JSON.parse` of a JWT payload segment is abstracted as a
  `decode : List Char → Option JwtClaims` oracle (`none` = the try/catch
  fires); the claims quantify over this oracle.
* The JS regex class `\s` / `\S` is modelled by `Char.isWhitespace`.
-/

namespace LldapCli

/-! ## Generic helpers modelling JS string primitives -/

instance {ε α : Type} [DecidableEq ε] [DecidableEq α] : DecidableEq (Except ε α) := fun x y =>
  match x, y with
  | Except.ok a, Except.ok b =>
    if h : a = b then isTrue (by simp [h]) else isFalse (by simp [h])
  | Except.error a, Except.error b =>
    if h : a = b then isTrue (by simp [h]) else isFalse (by simp [h])
  | Except.ok _, Except.error _ => isFalse (by simp)
  | Except.error _, Except.ok _ => isFalse (by simp)

/-- Model of JS `String.prototype.split(sep)` for a single-character
separator, over char lists: `splitOnChar '.' "a.b".toList = [[a],[b]]`,
and the empty string splits to `[[]]`, as in JS. -/
def splitOnChar (sep : Char) : List Char → List (List Char)
  | [] => [[]]
  | c :: cs =>
    let r := splitOnChar sep cs
    if c = sep then [] :: r
    else
      match r with
      | [] => [[c]]
      | g :: gs => (c :: g) :: gs

/-- True when `pat` is a prefix of `hay`. -/
def startsWithChars : List Char → List Char → Bool
  | _, [] => true
  | [], _ :: _ => false
  | h :: hs, p :: ps => h = p && startsWithChars hs ps

/-- True when `pat` occurs contiguously somewhere in `hay`. -/
def includesChars : List Char → List Char → Bool
  | [], pat => startsWithChars [] pat
  | c :: cs, pat => startsWithChars (c :: cs) pat || includesChars cs pat

/-- Model of JS `hay.includes(pat)` (substring containment). -/
def jsIncludes (hay pat : String) : Bool :=
  includesChars hay.toList pat.toList

/-! ## Token Inspector (`isTokenExpired`, client.ts lines 125-150) -/

/-- The decoded JWT payload claims, as far as `isTokenExpired` reads them:
only the `exp` field matters.  `none` models an absent/undefined `exp`;
`some e` models a numeric `exp` claim with value `e` (epoch seconds). -/
structure JwtClaims where
  exp : Option Int
deriving DecidableEq, Repr

/-- The base64url fixup applied to the middle token segment before `atob`:
`payload.replace(dash → plus).replace(underscore → slash)` (global). -/
def base64urlFixChars (cs : List Char) : List Char :=
  cs.map (fun c => if c = '-' then '+' else if c = '_' then '/' else c)

/--
Model of `LldapClient.isTokenExpired(token, bufferSeconds)`:

```ts
const parts = token.split('.');
if (parts.length !== 3) return true;
const payload = parts[1] with dash mapped to plus, underscore to slash;
const decoded = JSON.parse(atob(payload));
if (!decoded.exp) return false;          // JS truthiness: 0 is falsy
const expirationTime = decoded.exp * 1000;
return now >= expirationTime - bufferSeconds * 1000;
```

`decode` stands for `JSON.parse ∘ atob` (`none` = either throws, caught by
the surrounding try/catch which returns `true`).  The `e = 0` branch models
the JS truthiness test `!decoded.exp`, which treats a present-but-zero `exp`
exactly like an absent one. -/
def isTokenExpired (decode : List Char → Option JwtClaims) (now : Int)
    (token : String) (bufferSeconds : Int) : Bool :=
  match splitOnChar '.' token.toList with
  | [_, payload, _] =>
    match decode (base64urlFixChars payload) with
    | none => true
    | some claims =>
      match claims.exp with
      | none => false
      | some e =>
        if e = 0 then false
        else decide (now ≥ e * 1000 - bufferSeconds * 1000)
  | _ => true

/-- The call form `isTokenExpired(token)` with the default parameter
`bufferSeconds = 60` from the source signature. -/
def isTokenExpiredDefaultBuffer (decode : List Char → Option JwtClaims)
    (now : Int) (token : String) : Bool :=
  isTokenExpired decode now token 60

example : splitOnChar '.' "a.b.c".toList = ["a".toList, "b".toList, "c".toList] := by decide
example : jsIncludes "x429y" "429" = true := by decide
example : jsIncludes "404" "429" = false := by decide
example : isTokenExpired (fun _ => some ⟨some 1000⟩) 2000000 "h.p.s" 60 = true := by decide
example : isTokenExpired (fun _ => some ⟨none⟩) 2000000 "h.p.s" 60 = false := by decide
example : isTokenExpired (fun _ => some ⟨some 0⟩) 2000000 "h.p.s" 60 = false := by decide
example : isTokenExpired (fun _ => some ⟨some 1000⟩) 2000000 "h.p" 60 = true := by decide

/-! ## Redaction (the sanitization patterns of client.ts)

The source sanitizes with global, case-insensitive regex replaces of the
shape `keyword[=:]\S+  →  'keyword=[REDACTED]'` (keyword = `token` at
client.ts lines 389 and 398, `password` at line 235).  The scan below
reproduces the JS `String.prototype.replace` semantics for that pattern:
leftmost match, greedy maximal run of non-whitespace after the separator,
scanning resumes after the replaced span. -/

/-- Try to match `keyword[=:]\S+` (case-insensitively) at the head of `cs`;
on success return the remainder of `cs` after the greedy match. -/
def matchKeywordAt (kw : List Char) (cs : List Char) : Option (List Char) :=
  if (cs.take kw.length).map Char.toLower = kw.map Char.toLower
      ∧ (cs.take kw.length).length = kw.length then
    match cs.drop kw.length with
    | sep :: rest =>
      if sep = '=' ∨ sep = ':' then
        let taken := rest.takeWhile (fun c => !c.isWhitespace)
        if taken.length = 0 then none else some (rest.drop taken.length)
      else none
    | [] => none
  else none

/-- Worker for the global replace; `fuel` is a termination device (each step
consumes at least one character, so `fuel = cs.length` never runs out). -/
def redactKeywordFuel (kw : List Char) : Nat → List Char → List Char
  | 0, cs => cs
  | fuel + 1, [] => (fun _ => []) fuel
  | fuel + 1, c :: cs =>
    match matchKeywordAt kw (c :: cs) with
    | some rest => (kw ++ "=[REDACTED]".toList) ++ redactKeywordFuel kw fuel rest
    | none => c :: redactKeywordFuel kw fuel cs

/-- Model of `s.replace(keyword-pattern, keyword ++ '=[REDACTED]')` with the
global + case-insensitive flags, for a lowercase `kw`. -/
def redactKeyword (kw : String) (s : String) : String :=
  String.mk (redactKeywordFuel kw.toList s.toList.length s.toList)

/-- `text.replace(token-pattern, 'token=[REDACTED]')` — client.ts 389/398. -/
def sanitizeToken (s : String) : String := redactKeyword "token" s

/-- `text.replace(password-pattern, 'password=[REDACTED]')` — client.ts 235. -/
def sanitizePassword (s : String) : String := redactKeyword "password" s

example : sanitizeToken "Error with token=secretToken123 exposed"
    = "Error with token=[REDACTED] exposed" := by decide
example : sanitizePassword "password:hunter2 leaked"
    = "password=[REDACTED] leaked" := by decide
example : sanitizeToken "Token=abc tOKEN:xyz" = "token=[REDACTED] token=[REDACTED]" := by decide
example : sanitizeToken "token= nothing" = "token= nothing" := by decide

/-! ## Input Validator (client.ts lines 87-120) -/

/-- `MAX_INPUT_LENGTH` (client.ts line 18). -/
def MAX_INPUT_LENGTH : Nat := 1000

/-- `MAX_EMAIL_LENGTH` (client.ts line 19). -/
def MAX_EMAIL_LENGTH : Nat := 254

/-- `MAX_USERNAME_LENGTH` (client.ts line 20). -/
def MAX_USERNAME_LENGTH : Nat := 64

/-- Model of `validateInputLength(value, fieldName, maxLength)`:
throws when `value.length > maxLength` (the audit record is a log side
effect with no control-flow impact and is not modelled). -/
def validateInputLength (value : String) (fieldName : String) (maxLength : Nat) :
    Except String Unit :=
  if value.length > maxLength then
    Except.error (fieldName ++ " exceeds maximum length of " ++ toString maxLength ++ " characters")
  else Except.ok ()

/-- The character class `[a-zA-Z0-9_.-]` of the username regex. -/
def usernameCharOk (c : Char) : Bool :=
  (('a' ≤ c ∧ c ≤ 'z') ∨ ('A' ≤ c ∧ c ≤ 'Z') ∨ ('0' ≤ c ∧ c ≤ '9')
    ∨ c = '_' ∨ c = '.' ∨ c = '-' : Prop)

/-- Model of `validateUsername`: length check against 64, then the anchored
regex `[a-zA-Z0-9_.-]+` (one or more allowed characters, nothing else). -/
def validateUsername (username : String) : Except String Unit := do
  validateInputLength username "username" MAX_USERNAME_LENGTH
  if username.length > 0 ∧ username.toList.all usernameCharOk then Except.ok ()
  else Except.error "Username contains invalid characters. Only alphanumeric, underscore, dot, and hyphen allowed."

/--
The language of the email regex at client.ts line 110:
`caret [^\s@]+ at [^\s@]+ dot [^\s@]+ dollar` (anchored at both ends).

Derivation of this executable form.  Since the atom `[^\s@]` excludes `@`,
a matching string contains exactly one `@`, so splitting on `@` must yield
exactly two pieces `loc` and `domain` (conversely, with exactly one `@` the
two split pieces are `@`-free).  The local part matches `[^\s@]+` iff it is
non-empty and whitespace-free.  The domain must decompose as
`x ++ "." ++ y` with `x`, `y` non-empty runs of non-whitespace-non-`@`
characters — and since `.` itself belongs to the atom class, such a
decomposition exists iff the domain is whitespace-free and contains a `.`
at some position other than the first and the last (pick that dot as the
literal `.` of the pattern; `x` and `y` may freely contain further dots,
which is exactly what the backtracking regex engine allows). -/
def matchesEmailRegex (s : String) : Bool :=
  match splitOnChar '@' s.toList with
  | [loc, domain] =>
    !loc.isEmpty
      && loc.all (fun c => !c.isWhitespace)
      && domain.all (fun c => !c.isWhitespace)
      && ((domain.drop 1).dropLast.contains '.')
  | _ => false

/-- Model of `validateEmail`: length check against 254 (RFC 5321), then the
email regex; a non-match throws `'Invalid email format'`. -/
def validateEmail (email : String) : Except String Unit := do
  validateInputLength email "email" MAX_EMAIL_LENGTH
  if matchesEmailRegex email then Except.ok ()
  else Except.error "Invalid email format"

example : validateEmail "user@example.com" = Except.ok () := by decide
example : validateEmail "user.name@example.co.uk" = Except.ok () := by decide
example : validateEmail "userexample.com" = Except.error "Invalid email format" := by decide
example : validateEmail "user@" = Except.error "Invalid email format" := by decide
example : validateEmail "@example.com" = Except.error "Invalid email format" := by decide
example : validateEmail "user@localhost" = Except.error "Invalid email format" := by decide
example : validateEmail "user@example." = Except.error "Invalid email format" := by decide
example : validateEmail "user @example.com" = Except.error "Invalid email format" := by decide
example : validateEmail "a@b@c.com" = Except.error "Invalid email format" := by decide
example : validateUsername "valid_user" = Except.ok () := by decide
example : validateUsername "user@name" ≠ Except.ok () := by decide

/-! ## Rate-Limited Executor (`handleRateLimit`, client.ts lines 178-199) -/

/-- `MAX_RATE_LIMIT_RETRIES` (client.ts line 15). -/
def MAX_RATE_LIMIT_RETRIES : Nat := 3

/-- `RATE_LIMIT_BACKOFF_MS` (client.ts line 16). -/
def RATE_LIMIT_BACKOFF_MS : Nat := 1000

/-- The message thrown on retry exhaustion (client.ts lines 188 and 198). -/
def rateLimitExceededMsg : String := "Rate limit exceeded. Please try again later."

/-- Observable outcome of one `handleRateLimit` call: the returned value or
thrown error, how many times `operation` was invoked, the backoff delays
slept (in order, in ms), and the value of the instance field
`rateLimitRetryCount` after the call. -/
structure RateLimitRun (α : Type) where
  result : Except String α
  attempts : Nat
  delays : List Nat
  finalRetryCount : Nat
deriving DecidableEq, Repr

/--
The `while` loop of `handleRateLimit`.  `op n` is the outcome of the
`(n+1)`-th invocation of `operation` (`Except.error e` models a rejection
with message `e`; the 429 test is `e.includes('429')`).  `count` is the
current value of `this.rateLimitRetryCount`, `attempts`/`delays` accumulate
the observables.  `fuel` is a termination device: the loop body strictly
increases `count` toward the bound, so `fuel = MAX_RATE_LIMIT_RETRIES -
count` (as passed by `handleRateLimit`) never runs out; the fuel-0 row
coincides with the loop-exit row (`count ≥ MAX`), which is the only way
fuel can reach 0.

```ts
while (this.rateLimitRetryCount < MAX_RATE_LIMIT_RETRIES) {
  try { const result = await operation();
        this.rateLimitRetryCount = 0; return result; }
  catch (error) {
    if (error instanceof Error && error.message.includes('429')) {
      this.rateLimitRetryCount++;
      if (this.rateLimitRetryCount >= MAX_RATE_LIMIT_RETRIES) {
        throw new Error('Rate limit exceeded. Please try again later.'); }
      const backoff = RATE_LIMIT_BACKOFF_MS * Math.pow(2, this.rateLimitRetryCount - 1);
      await sleep(backoff);
    } else { throw error; } } }
throw new Error('Rate limit exceeded. Please try again later.');
```
-/
def handleRateLimitLoop {α : Type} (op : Nat → Except String α) :
    Nat → Nat → Nat → List Nat → RateLimitRun α
  | 0, count, attempts, delays => ⟨Except.error rateLimitExceededMsg, attempts, delays, count⟩
  | fuel + 1, count, attempts, delays =>
    if count < MAX_RATE_LIMIT_RETRIES then
      match op attempts with
      | Except.ok v => ⟨Except.ok v, attempts + 1, delays, 0⟩
      | Except.error e =>
        if jsIncludes e "429" then
          if count + 1 ≥ MAX_RATE_LIMIT_RETRIES then
            ⟨Except.error rateLimitExceededMsg, attempts + 1, delays, count + 1⟩
          else
            handleRateLimitLoop op fuel (count + 1) (attempts + 1)
              (delays ++ [RATE_LIMIT_BACKOFF_MS * 2 ^ (count + 1 - 1)])
        else ⟨Except.error e, attempts + 1, delays, count⟩
    else ⟨Except.error rateLimitExceededMsg, attempts, delays, count⟩

/-- One call of `handleRateLimit(operation)` starting with
`this.rateLimitRetryCount = count`. -/
def handleRateLimit {α : Type} (op : Nat → Except String α) (count : Nat) :
    RateLimitRun α :=
  handleRateLimitLoop op (MAX_RATE_LIMIT_RETRIES - count) count 0 []

example :
    handleRateLimit (fun _ => (Except.error "429 Rate limit exceeded" : Except String Nat)) 0
      = ⟨Except.error rateLimitExceededMsg, 3, [1000, 2000], 3⟩ := by decide
example :
    handleRateLimit (fun n => if n = 0 then Except.error "429 Rate limit exceeded" else Except.ok 7) 0
      = ⟨Except.ok 7, 2, [1000], 0⟩ := by decide
example :
    handleRateLimit (fun _ => (Except.error "boom" : Except String Nat)) 0
      = ⟨Except.error "boom", 1, [], 0⟩ := by decide
example :
    handleRateLimit (fun _ => (Except.ok 5 : Except String Nat)) 3
      = ⟨Except.error rateLimitExceededMsg, 0, [], 3⟩ := by decide

/-! ## Session Manager (client.ts lines 8-325) -/

/-- `SESSION_TIMEOUT_MS` (client.ts line 17): 30 minutes. -/
def SESSION_TIMEOUT_MS : Int := 30 * 60 * 1000

/-- The session-timeout error message (client.ts line 78). -/
def sessionTimeoutMsg : String := "Session timed out due to inactivity. Please re-authenticate."

/-- The relevant slice of the `Config` record (types.ts): credentials used
by `login()` when called with no arguments.  `none` covers both an absent
field and the JS-falsy empty string (the source tests truthiness). -/
structure Config where
  username : Option String
  password : Option String

/-- The token pair returned by a successful login (types.ts `AuthTokens`). -/
structure AuthTokens where
  token : String
  refreshToken : String
deriving DecidableEq, Repr

/-- The mutable session state of an `LldapClient` instance (client.ts lines
10-14): access token, refresh token, activity timestamp, the
self-acquired-login flag and the rate-limit retry counter. -/
structure SessionState where
  token : Option String
  refreshToken : Option String
  lastActivityTime : Int
  shouldLogout : Bool
  rateLimitRetryCount : Nat
deriving DecidableEq, Repr

/--
Model of `checkSessionTimeout` (client.ts lines 69-82): returns the state
after the call and the thrown error, if any.

```ts
const elapsed = now - this.lastActivityTime;
if (elapsed > SESSION_TIMEOUT_MS) {
  this.audit('security', 'session_timeout', ...);  // log only
  this.token = undefined; this.refreshToken = undefined;
  throw new Error('Session timed out due to inactivity. Please re-authenticate.');
}
this.lastActivityTime = now;
```
-/
def checkSessionTimeout (s : SessionState) (now : Int) : SessionState × Option String :=
  if now - s.lastActivityTime > SESSION_TIMEOUT_MS then
    (⟨none, none, s.lastActivityTime, s.shouldLogout, s.rateLimitRetryCount⟩,
      some sessionTimeoutMsg)
  else (⟨s.token, s.refreshToken, now, s.shouldLogout, s.rateLimitRetryCount⟩, none)

/-- Outcome of the login HTTP exchange, abstracting `fetch` at client.ts
lines 220-239: a 429 status, another non-2xx status carrying the response
text, or a 2xx carrying the parsed token pair. -/
inductive LoginFetchOutcome where
  | rateLimited : LoginFetchOutcome
  | httpError (text : String) : LoginFetchOutcome
  | success (toks : AuthTokens) : LoginFetchOutcome

/-- Outcome of the refresh HTTP exchange (client.ts lines 260-269): a
non-ok response carrying the response text, or an ok response carrying the
new access token. -/
inductive RefreshFetchOutcome where
  | httpError (text : String) : RefreshFetchOutcome
  | success (newToken : String) : RefreshFetchOutcome

/--
Model of `login()` called with no arguments (client.ts lines 204-249),
with the network exchange abstracted by `outcome`.  Returns the state after
the call and the returned token pair or thrown error.

```ts
const user = username || this.config.username;
const pass = password || this.config.password;
if (!user || !pass) throw new Error('Username and password are required for login');
this.validateUsername(user);
... fetch ...
if (response.status === 429) throw new Error('429 Rate limit exceeded');
if (!response.ok) {
  const sanitizedText = text.replace(password-pattern, 'password=[REDACTED]');
  throw new Error(`Login failed: ` + sanitizedText); }
this.token = data.token; this.refreshToken = data.refreshToken;
this.lastActivityTime = Date.now();
```

(The surrounding `handleRateLimit` wrapper is modelled separately by
`handleRateLimit`; `outcome` stands for one attempt's exchange.) -/
def loginModel (cfg : Config) (now : Int) (s : SessionState)
    (outcome : LoginFetchOutcome) : SessionState × Except String AuthTokens :=
  match cfg.username, cfg.password with
  | some u, some _ =>
    match validateUsername u with
    | Except.error e => (s, Except.error e)
    | Except.ok _ =>
      match outcome with
      | LoginFetchOutcome.rateLimited => (s, Except.error "429 Rate limit exceeded")
      | LoginFetchOutcome.httpError text =>
        (s, Except.error ("Login failed: " ++ sanitizePassword text))
      | LoginFetchOutcome.success toks =>
        (⟨some toks.token, some toks.refreshToken, now, s.shouldLogout,
          s.rateLimitRetryCount⟩, Except.ok toks)
  | _, _ => (s, Except.error "Username and password are required for login")

/--
Model of `refresh()` (client.ts lines 254-272), network abstracted by
`outcome`.

```ts
if (!this.refreshToken) throw new Error('Refresh token is required');
... fetch ...
if (!response.ok) { const text = await response.text();
  throw new Error(`Token refresh failed: ` + text); }   // NB: no redaction
this.token = data.token; return data.token;
```
-/
def refreshModel (s : SessionState) (outcome : RefreshFetchOutcome) :
    SessionState × Except String String :=
  match s.refreshToken with
  | none => (s, Except.error "Refresh token is required")
  | some _ =>
    match outcome with
    | RefreshFetchOutcome.httpError text =>
      (s, Except.error ("Token refresh failed: " ++ text))
    | RefreshFetchOutcome.success newToken =>
      (⟨some newToken, s.refreshToken, s.lastActivityTime, s.shouldLogout,
        s.rateLimitRetryCount⟩, Except.ok newToken)

/-- Observables of one `ensureAuthenticated()` call: final state, thrown
error (if any), how many times `refresh()` and `login()` were invoked, and
whether the refresh-token advisory warning was printed. -/
structure EnsureAuthResult where
  state : SessionState
  result : Except String Unit
  refreshCalls : Nat
  loginCalls : Nat
  warnedRefreshExpiring : Bool

/--
Model of `ensureAuthenticated()` (client.ts lines 291-316):

```ts
this.checkSessionTimeout();
if (this.token && !this.isTokenExpired(this.token)) return;   // 60s default buffer
if (this.refreshToken) {
  if (this.isTokenExpired(this.refreshToken, 300)) { warn }   // advisory only
  await this.refresh(); return; }
await this.login();
this.shouldLogout = true;
```

`decode` is the JWT-payload oracle, `refreshOutcome`/`loginOutcome`
abstract the two possible network exchanges. -/
def ensureAuthenticated (decode : List Char → Option JwtClaims) (cfg : Config)
    (now : Int) (s0 : SessionState) (refreshOutcome : RefreshFetchOutcome)
    (loginOutcome : LoginFetchOutcome) : EnsureAuthResult :=
  match checkSessionTimeout s0 now with
  | (s1, some e) => ⟨s1, Except.error e, 0, 0, false⟩
  | (s1, none) =>
    if (match s1.token with
        | some t => !isTokenExpired decode now t 60
        | none => false) then
      ⟨s1, Except.ok (), 0, 0, false⟩
    else
      match s1.refreshToken with
      | some rt =>
        let warned := isTokenExpired decode now rt 300
        match refreshModel s1 refreshOutcome with
        | (s2, Except.ok _) => ⟨s2, Except.ok (), 1, 0, warned⟩
        | (s2, Except.error e) => ⟨s2, Except.error e, 1, 0, warned⟩
      | none =>
        match loginModel cfg now s1 loginOutcome with
        | (s2, Except.ok _) =>
          (⟨⟨s2.token, s2.refreshToken, s2.lastActivityTime, true,
            s2.rateLimitRetryCount⟩, Except.ok (), 0, 1, false⟩)
        | (s2, Except.error e) => ⟨s2, Except.error e, 0, 1, false⟩

/-- Model of `cleanup()` (client.ts lines 321-325): returns whether
`logout()` is invoked (`shouldLogout && refreshToken` both set). -/
def cleanup (s : SessionState) : Bool :=
  s.shouldLogout && s.refreshToken.isSome

/-! ## Transport / query response handling (client.ts lines 369-408) -/

/-- One entry of the GraphQL `errors` array. -/
structure GraphQLErrorEntry where
  message : String
deriving DecidableEq, Repr

/-- The GraphQL response envelope (types.ts `GraphQLResponse<T>`):
`data?: T; errors?: Array<{message}>`. -/
structure GraphQLResponse (T : Type) where
  data : Option T
  errors : Option (List GraphQLErrorEntry)

/--
Model of the HTTP status dispatch of `query()` (client.ts lines 378-391):
`some msg` is the error thrown for this status, `none` means fall through
to envelope parsing.  `response.ok` is status 200-299.

```ts
if (response.status === 401) throw new Error('Authentication failed. ...');
if (response.status === 429) throw new Error('429 Rate limit exceeded');
if (!response.ok) {
  const sanitizedText = text.replace(token-pattern, 'token=[REDACTED]');
  throw new Error(`GraphQL request failed (status): ` + sanitizedText); }
```
-/
def queryHttpError (status : Nat) (text : String) : Option String :=
  if status = 401 then
    some "Authentication failed. Token may be expired. Try logging in again."
  else if status = 429 then some "429 Rate limit exceeded"
  else if ¬ (200 ≤ status ∧ status ≤ 299) then
    some ("GraphQL request failed (" ++ toString status ++ "): " ++ sanitizeToken text)
  else none

/--
Model of the envelope handling of `query()` (client.ts lines 393-407):

```ts
if (result.errors?.length) {
  const sanitizedErrors = result.errors.map(e => e.message.replace(token-pattern, ...));
  throw new Error(`GraphQL error: ` + sanitizedErrors.join(', ')); }
if (!result.data) throw new Error('No data returned from GraphQL query');
return result.data;
```

(`result.errors?.length` is truthy exactly when `errors` is present and
non-empty; `!result.data` models an absent `data` field.) -/
def processGraphQLEnvelope {T : Type} (r : GraphQLResponse T) : Except String T :=
  if (match r.errors with
      | some es => es.length != 0
      | none => false) then
    match r.errors with
    | some es =>
      Except.error ("GraphQL error: "
        ++ String.intercalate ", " (es.map (fun e => sanitizeToken e.message)))
    | none => Except.error "GraphQL error: "
  else
    match r.data with
    | none => Except.error "No data returned from GraphQL query"
    | some d => Except.ok d

/-! ## Theorems settling the claims -/

/-- C2 (amended): `isTokenExpired` returns true when the token does not
split on `.` into exactly 3 segments, and true when the middle segment
fails decoding/parsing; it returns false when the decoded claims have no
expiration field **or the expiration field is the falsy value 0**;
otherwise (expiration present and non-zero) it returns true iff
`now ≥ exp*1000 - bufferSeconds*1000`; the default buffer of the source
signature is 60 seconds. -/
theorem isTokenExpired_spec (decode : List Char → Option JwtClaims) (now : Int)
    (token : String) (buffer : Int) :
    ((splitOnChar '.' token.toList).length ≠ 3 →
      isTokenExpired decode now token buffer = true) ∧
    (∀ hd p g, splitOnChar '.' token.toList = [hd, p, g] →
      (decode (base64urlFixChars p) = none →
        isTokenExpired decode now token buffer = true) ∧
      (∀ claims, decode (base64urlFixChars p) = some claims →
        (claims.exp = none → isTokenExpired decode now token buffer = false) ∧
        (claims.exp = some 0 → isTokenExpired decode now token buffer = false) ∧
        (∀ e, claims.exp = some e → e ≠ 0 →
          (isTokenExpired decode now token buffer = true ↔
            now ≥ e * 1000 - buffer * 1000)))) ∧
    (isTokenExpiredDefaultBuffer decode now token = isTokenExpired decode now token 60) := by
  refine ⟨?_, ?_, rfl⟩
  · intro hlen
    simp only [String.toList] at hlen
    rcases hsp : splitOnChar '.' token.data with _ | ⟨a, _ | ⟨b, _ | ⟨c, _ | ⟨d, tl⟩⟩⟩⟩
    · simp [isTokenExpired, hsp]
    · simp [isTokenExpired, hsp]
    · simp [isTokenExpired, hsp]
    · exact absurd (by rw [hsp]; rfl) hlen
    · simp [isTokenExpired, hsp]
  · intro hd p g hsp
    simp only [String.toList] at hsp
    refine ⟨?_, ?_⟩
    · intro hdec
      simp [isTokenExpired, hsp, hdec]
    · intro claims hdec
      refine ⟨?_, ?_, ?_⟩
      · intro hexp; simp [isTokenExpired, hsp, hdec, hexp]
      · intro hexp; simp [isTokenExpired, hsp, hdec, hexp]
      · intro e hexp hne
        simp [isTokenExpired, hsp, hdec, hexp, hne, ge_iff_le]

/-- C2 counterexample: a token whose payload decodes with `exp = 0` is
reported **not** expired even though `now ≥ 0*1000 - 60*1000`, contradicting
the claim's "otherwise expired iff now ≥ expirationTime - buffer" clause for
tokens whose expiration field is present. -/
theorem isTokenExpired_c2_counterexample :
    isTokenExpired (fun _ => some ⟨some 0⟩) 1700000000000 "a.b.c" 60 = false ∧
    (1700000000000 : Int) ≥ 0 * 1000 - 60 * 1000 := by
  exact ⟨by decide, by decide⟩

/-- C2 witness: for a well-formed token whose payload decodes with
`exp = 1` (epoch second 1, far in the past), the characterization gives
expired = true at `now = 1700000000000`. -/
theorem isTokenExpired_spec_witness :
    isTokenExpired (fun _ => some ⟨some 1⟩) 1700000000000 "a.b.c" 60 = true := by
  have h := ((isTokenExpired_spec (fun _ => some ⟨some 1⟩) 1700000000000 "a.b.c" 60).2.1
    "a".toList "b".toList "c".toList (by decide)).2 ⟨some 1⟩ rfl
  exact (h.2.2 1 rfl (by decide)).mpr (by decide)

/-- C10: for every token that splits into 3 segments and whose payload
decodes to claims with `exp` present but equal to 0, `isTokenExpired`
returns false — the truthiness test `!decoded.exp` routes a zero expiration
into the "no expiration" branch. -/
theorem isTokenExpired_falsy_exp (decode : List Char → Option JwtClaims)
    (now : Int) (token : String) (buffer : Int) (hd p g : List Char)
    (hsp : splitOnChar '.' token.toList = [hd, p, g])
    (hdec : decode (base64urlFixChars p) = some ⟨some 0⟩) :
    isTokenExpired decode now token buffer = false := by
  simp only [String.toList] at hsp
  simp [isTokenExpired, hsp, hdec]

/-- C10 witness: a concrete 3-segment token whose payload decodes to
`exp = 0` is reported not expired at a present-day `now`. -/
theorem isTokenExpired_falsy_exp_witness :
    isTokenExpired (fun _ => some ⟨some 0⟩) 1700000000000 "x.y.z" 60 = false :=
  isTokenExpired_falsy_exp (fun _ => some ⟨some 0⟩) 1700000000000 "x.y.z" 60
    "x".toList "y".toList "z".toList (by decide) rfl

/-- C8: the code contradicts the claim (and the repository's own test
suite, tests/security.test.ts): `validateEmail` accepts
`"user@.example.com"` (domain starting with `.`) and `"a@b.c."` (domain
ending with `.`), because the backtracking pattern only needs **some** dot
with non-empty runs on both sides and the atom class `[^\s@]` itself
contains `.`.  The test suite asserts both a leading-dot domain and the
ReDoS probe `"!@!." ++ "!." * 100` throw `'Invalid email format'`; the
regex accepts them. -/
theorem validateEmail_c8_failing_input :
    validateEmail "user@.example.com" = Except.ok () ∧
    validateEmail "a@b.c." = Except.ok () ∧
    validateEmail "!@!.!.!." = Except.ok () := by
  exact ⟨by decide, by decide, by decide⟩

/-- C5: whenever the session-timeout check observes elapsed time strictly
greater than 30 minutes, it clears both tokens before the error escapes and
fails with the session-timeout error; consequently `ensureAuthenticated`
on such a state fails with that error, leaves both tokens cleared, and
performs no refresh and no login (no silent re-login). -/
theorem checkSessionTimeout_clears_tokens (s : SessionState) (now : Int)
    (h : now - s.lastActivityTime > SESSION_TIMEOUT_MS) :
    (checkSessionTimeout s now).1.token = none ∧
    (checkSessionTimeout s now).1.refreshToken = none ∧
    (checkSessionTimeout s now).2 = some sessionTimeoutMsg ∧
    (∀ decode cfg ro lo,
      (ensureAuthenticated decode cfg now s ro lo).result = Except.error sessionTimeoutMsg ∧
      (ensureAuthenticated decode cfg now s ro lo).state.token = none ∧
      (ensureAuthenticated decode cfg now s ro lo).state.refreshToken = none ∧
      (ensureAuthenticated decode cfg now s ro lo).refreshCalls = 0 ∧
      (ensureAuthenticated decode cfg now s ro lo).loginCalls = 0) := by
  refine ⟨by simp [checkSessionTimeout, h], by simp [checkSessionTimeout, h],
    by simp [checkSessionTimeout, h], ?_⟩
  intro decode cfg ro lo
  simp [ensureAuthenticated, checkSessionTimeout, h]

/-- C5 witness: a concrete state 31 minutes stale at `now = 1860001` is
timed out; both tokens are cleared and `ensureAuthenticated` fails without
any network call. -/
theorem checkSessionTimeout_clears_tokens_witness :
    (checkSessionTimeout ⟨some "tok", some "ref", 0, false, 0⟩ 1860001).1.token = none ∧
    (ensureAuthenticated (fun _ => none) ⟨some "admin", some "pw"⟩ 1860001
        ⟨some "tok", some "ref", 0, false, 0⟩ (RefreshFetchOutcome.success "n")
        (LoginFetchOutcome.success ⟨"t", "r"⟩)).result = Except.error sessionTimeoutMsg := by
  have h := checkSessionTimeout_clears_tokens ⟨some "tok", some "ref", 0, false, 0⟩ 1860001
    (by decide)
  exact ⟨h.1, (h.2.2.2 (fun _ => none) ⟨some "admin", some "pw"⟩
    (RefreshFetchOutcome.success "n") (LoginFetchOutcome.success ⟨"t", "r"⟩)).1⟩

/-- C6: for every parsed 2xx GraphQL envelope, a non-empty `errors`
sequence always fails (even when `data` is present) with a message joining
all (token-redacted) error messages; an absent `data` with no errors fails
with the generic no-data error; and the data is returned exactly when
`errors` is empty or absent and `data` is present. -/
theorem processGraphQLEnvelope_spec {T : Type} (r : GraphQLResponse T) :
    (∀ es, r.errors = some es → es ≠ [] →
      processGraphQLEnvelope r = Except.error ("GraphQL error: "
        ++ String.intercalate ", " (es.map (fun e => sanitizeToken e.message)))) ∧
    ((r.errors = none ∨ r.errors = some []) → r.data = none →
      processGraphQLEnvelope r = Except.error "No data returned from GraphQL query") ∧
    (∀ d, (r.errors = none ∨ r.errors = some []) → r.data = some d →
      processGraphQLEnvelope r = Except.ok d) := by
  refine ⟨?_, ?_, ?_⟩
  · intro es hes hne
    simp [processGraphQLEnvelope, hes, hne]
  · intro herr hdata
    rcases herr with h | h <;> simp [processGraphQLEnvelope, h, hdata]
  · intro d herr hdata
    rcases herr with h | h <;> simp [processGraphQLEnvelope, h, hdata]

/-- C6 witness: an envelope carrying both an error entry and data fails
with the joined message; an empty-error envelope with data returns it. -/
theorem processGraphQLEnvelope_spec_witness :
    processGraphQLEnvelope (⟨some 7, some [⟨"boom"⟩, ⟨"bust"⟩]⟩ : GraphQLResponse Nat)
      = Except.error "GraphQL error: boom, bust" ∧
    processGraphQLEnvelope (⟨some 7, some []⟩ : GraphQLResponse Nat) = Except.ok 7 := by
  constructor
  · have h := (processGraphQLEnvelope_spec (⟨some 7, some [⟨"boom"⟩, ⟨"bust"⟩]⟩ :
      GraphQLResponse Nat)).1 [⟨"boom"⟩, ⟨"bust"⟩] rfl (by decide)
    rw [h]; decide
  · exact (processGraphQLEnvelope_spec (⟨some 7, some []⟩ : GraphQLResponse Nat)).2.2
      7 (Or.inr rfl) rfl

/-- C7 counterexample: a failed `refresh()` embeds the server response text
verbatim — for response text `token=abc123XYZ` the thrown message contains
the unredacted `token=...` substring and no redaction marker, contradicting
"every failure path redacts". -/
theorem refresh_c7_counterexample :
    (refreshModel ⟨none, some "rt", 0, false, 0⟩
        (RefreshFetchOutcome.httpError "token=abc123XYZ")).2
      = Except.error "Token refresh failed: token=abc123XYZ" ∧
    jsIncludes "Token refresh failed: token=abc123XYZ" "token=abc123XYZ" = true ∧
    jsIncludes "Token refresh failed: token=abc123XYZ" "[REDACTED]" = false := by
  exact ⟨by decide, by decide, by decide⟩

/-- C7 (amended): redaction is per-path, not universal: `login()` failures
redact `password=...` patterns and `query()` HTTP failures redact
`token=...` patterns before throwing, but a failed `refresh()` throws the
server response text verbatim, with no redaction applied. -/
theorem redaction_per_path_spec :
    (∀ (s : SessionState) (text : String), s.refreshToken.isSome = true →
      (refreshModel s (RefreshFetchOutcome.httpError text)).2
        = Except.error ("Token refresh failed: " ++ text)) ∧
    (∀ (cfg : Config) (now : Int) (s : SessionState) (u p text : String),
      cfg.username = some u → cfg.password = some p →
      validateUsername u = Except.ok () →
      (loginModel cfg now s (LoginFetchOutcome.httpError text)).2
        = Except.error ("Login failed: " ++ sanitizePassword text)) ∧
    (∀ (status : Nat) (text : String), status ≠ 401 → status ≠ 429 →
      ¬ (200 ≤ status ∧ status ≤ 299) →
      queryHttpError status text
        = some ("GraphQL request failed (" ++ toString status ++ "): " ++ sanitizeToken text)) := by
  refine ⟨?_, ?_, ?_⟩
  · intro s text hrt
    cases h : s.refreshToken with
    | none => rw [h] at hrt; simp at hrt
    | some rt => simp [refreshModel, h]
  · intro cfg now s u p text hu hp hval
    simp [loginModel, hu, hp, hval]
  · intro status text h401 h429 hok
    simp [queryHttpError, h401, h429, hok]

/-- C7 witness: concrete instances of the three paths — an unredacted
refresh failure, a password-redacting login failure, and a token-redacting
query failure at HTTP 500. -/
theorem redaction_per_path_spec_witness :
    (refreshModel ⟨none, some "r", 0, false, 0⟩
        (RefreshFetchOutcome.httpError "password=hunter2")).2
      = Except.error ("Token refresh failed: " ++ "password=hunter2") ∧
    (loginModel ⟨some "admin", some "pw"⟩ 5 ⟨none, none, 0, false, 0⟩
        (LoginFetchOutcome.httpError "password=hunter2")).2
      = Except.error ("Login failed: " ++ sanitizePassword "password=hunter2") ∧
    queryHttpError 500 "token=abc"
      = some ("GraphQL request failed (" ++ toString 500 ++ "): " ++ sanitizeToken "token=abc") := by
  refine ⟨redaction_per_path_spec.1 ⟨none, some "r", 0, false, 0⟩ "password=hunter2" rfl,
    redaction_per_path_spec.2.1 ⟨some "admin", some "pw"⟩ 5 ⟨none, none, 0, false, 0⟩
      "admin" "pw" "password=hunter2" rfl rfl (by decide),
    redaction_per_path_spec.2.2 500 "token=abc" (by decide) (by decide) (by decide)⟩

/-- C3: the executor retries only on failures whose message carries the
429 signal — any other failure propagates unchanged after exactly one
further invocation — and an operation that signals 429 on every attempt is
invoked exactly 3 times (from a fresh counter) and then fails with the
fixed rate-limit message regardless of the original messages. -/
theorem handleRateLimit_429_spec {α : Type} (op : Nat → Except String α) :
    (∀ fuel count attempts delays e, count < MAX_RATE_LIMIT_RETRIES →
      op attempts = Except.error e → jsIncludes e "429" = false →
      handleRateLimitLoop op (fuel + 1) count attempts delays
        = ⟨Except.error e, attempts + 1, delays, count⟩) ∧
    ((∀ n, ∃ e, op n = Except.error e ∧ jsIncludes e "429" = true) →
      (handleRateLimit op 0).attempts = 3 ∧
      (handleRateLimit op 0).result = Except.error rateLimitExceededMsg) := by
  constructor
  · intro fuel count attempts delays e hc hop h429
    simp [handleRateLimitLoop, hc, hop, h429]
  · intro h
    obtain ⟨e0, h0, i0⟩ := h 0
    obtain ⟨e1, h1, i1⟩ := h 1
    obtain ⟨e2, h2, i2⟩ := h 2
    have : handleRateLimit op 0 = ⟨Except.error rateLimitExceededMsg, 3,
        [RATE_LIMIT_BACKOFF_MS * 2 ^ 0, RATE_LIMIT_BACKOFF_MS * 2 ^ 1], 3⟩ := by
      simp [handleRateLimit, handleRateLimitLoop, MAX_RATE_LIMIT_RETRIES,
        h0, i0, h1, i1, h2, i2]
    rw [this]
    exact ⟨rfl, rfl⟩

/-- C3 witness: a non-429 failure propagates verbatim on its first
occurrence, and the always-429 operation is invoked exactly 3 times and
fails with the rate-limit message. -/
theorem handleRateLimit_429_spec_witness :
    handleRateLimitLoop (fun _ => (Except.error "boom" : Except String Nat)) 3 0 0 []
      = ⟨Except.error "boom", 1, [], 0⟩ ∧
    (handleRateLimit (fun _ => (Except.error "re-auth 429 please" : Except String Nat)) 0).attempts = 3 ∧
    (handleRateLimit (fun _ => (Except.error "re-auth 429 please" : Except String Nat)) 0).result
      = Except.error rateLimitExceededMsg := by
  refine ⟨(handleRateLimit_429_spec _).1 2 0 0 [] "boom" (by decide) rfl (by decide), ?_⟩
  exact (handleRateLimit_429_spec _).2 (fun n => ⟨"re-auth 429 please", rfl, by decide⟩)

/-- C4 counterexample: under the default maximum of 3, an operation that
always signals 429 sleeps only the delays 1000ms and 2000ms — the third
failure throws immediately, so the claimed full sequence
[1000, 2000, 4000] is never experienced. -/
theorem backoff_c4_counterexample :
    (handleRateLimit (fun _ => (Except.error "429 Rate limit exceeded" : Except String Nat)) 0).delays
      = [1000, 2000] ∧
    ([1000, 2000] : List Nat) ≠ [1000, 2000, 4000] := by
  exact ⟨by decide, by decide⟩

/-- C4 (amended): the backoff delay slept before retry `n` is
`baseDelayMs * 2^(n-1)` with base 1000ms, but under the default maximum of
3 an always-429 operation experiences only the delays for n = 1 and n = 2
(1000ms, 2000ms): after the third failure the executor throws without a
further delay.  A single 429 followed by success sleeps exactly the n = 1
delay of 1000ms. -/
theorem backoff_delay_spec {α : Type} :
    (∀ op : Nat → Except String α,
      (∀ n, ∃ e, op n = Except.error e ∧ jsIncludes e "429" = true) →
      (handleRateLimit op 0).delays
        = [RATE_LIMIT_BACKOFF_MS * 2 ^ (1 - 1), RATE_LIMIT_BACKOFF_MS * 2 ^ (2 - 1)]) ∧
    (∀ (op : Nat → Except String α) (e : String) (v : α),
      op 0 = Except.error e → jsIncludes e "429" = true → op 1 = Except.ok v →
      (handleRateLimit op 0).delays = [RATE_LIMIT_BACKOFF_MS * 2 ^ (1 - 1)] ∧
      (handleRateLimit op 0).attempts = 2 ∧
      (handleRateLimit op 0).result = Except.ok v) := by
  constructor
  · intro op h
    obtain ⟨e0, h0, i0⟩ := h 0
    obtain ⟨e1, h1, i1⟩ := h 1
    obtain ⟨e2, h2, i2⟩ := h 2
    simp [handleRateLimit, handleRateLimitLoop, MAX_RATE_LIMIT_RETRIES,
      h0, i0, h1, i1, h2, i2]
  · intro op e v h0 i0 h1
    have : handleRateLimit op 0
        = ⟨Except.ok v, 2, [RATE_LIMIT_BACKOFF_MS * 2 ^ 0], 0⟩ := by
      simp [handleRateLimit, handleRateLimitLoop, MAX_RATE_LIMIT_RETRIES, h0, i0, h1]
    rw [this]
    exact ⟨rfl, rfl, rfl⟩

/-- C4 witness: the two scenarios at concrete operations — always-429
yields the delay list [1000, 2000]; one 429 then success yields [1000],
two invocations and the success value. -/
theorem backoff_delay_spec_witness :
    (handleRateLimit (fun _ => (Except.error "429" : Except String Nat)) 0).delays
      = [RATE_LIMIT_BACKOFF_MS * 2 ^ (1 - 1), RATE_LIMIT_BACKOFF_MS * 2 ^ (2 - 1)] ∧
    (handleRateLimit (fun n => if n = 0 then Except.error "429" else Except.ok 9) 0).delays
      = [RATE_LIMIT_BACKOFF_MS * 2 ^ (1 - 1)] := by
  refine ⟨backoff_delay_spec.1 _ (fun n => ⟨"429", rfl, by decide⟩), ?_⟩
  exact (backoff_delay_spec.2 (fun n => if n = 0 then Except.error "429" else Except.ok 9)
    "429" 9 rfl (by decide) rfl).1

/-- Helper: whenever a `handleRateLimit` run returns a success, the retry
counter field ends at 0 (the reset-on-success assignment). -/
theorem rl_ok_finalRetryCount {α : Type} (op : Nat → Except String α) :
    ∀ fuel count attempts delays v,
      (handleRateLimitLoop op fuel count attempts delays).result = Except.ok v →
      (handleRateLimitLoop op fuel count attempts delays).finalRetryCount = 0 := by
  intro fuel
  induction fuel with
  | zero =>
    intro count attempts delays v h
    simp [handleRateLimitLoop] at h
  | succ n ih =>
    intro count attempts delays v h
    by_cases hc : count < MAX_RATE_LIMIT_RETRIES
    · cases hop : op attempts with
      | ok w => simp [handleRateLimitLoop, hc, hop]
      | error e =>
        by_cases h429 : jsIncludes e "429" = true
        · by_cases hcap : count + 1 ≥ MAX_RATE_LIMIT_RETRIES
          · simp [handleRateLimitLoop, hc, hop, h429, hcap] at h
          · simp only [handleRateLimitLoop, if_pos hc, hop, h429, if_true, if_neg hcap] at h ⊢
            exact ih _ _ _ v h
        · simp [handleRateLimitLoop, hc, hop, h429] at h
    · simp [handleRateLimitLoop, hc] at h

/-- C9 counterexample: after an operation exhausts the retry cap the
counter stays at 3, and the **next** executor call on the same client is
not attempted at all — zero invocations — and fails with the rate-limit
error, contradicting "still attempted with fresh retries". -/
theorem retryCounter_c9_counterexample :
    (handleRateLimit (fun _ => (Except.error "429 Rate limit exceeded" : Except String Nat)) 0).finalRetryCount = 3 ∧
    (handleRateLimit (fun _ => (Except.ok 42 : Except String Nat))
      (handleRateLimit (fun _ => (Except.error "429 Rate limit exceeded" : Except String Nat)) 0).finalRetryCount).attempts = 0 ∧
    (handleRateLimit (fun _ => (Except.ok 42 : Except String Nat))
      (handleRateLimit (fun _ => (Except.error "429 Rate limit exceeded" : Except String Nat)) 0).finalRetryCount).result
      = Except.error rateLimitExceededMsg := by
  exact ⟨by decide, by decide, by decide⟩

/-- C9 (amended): the retry counter is reset to 0 on every successful
operation, so a call made after any success starts with the full budget;
but the counter persists across calls otherwise — after an operation
exhausts the cap the counter remains at the maximum and a subsequent call
of the executor fails immediately with the rate-limit error without
invoking the operation even once. -/
theorem retryCounter_scope_spec {α : Type} :
    (∀ (op : Nat → Except String α) (count : Nat) (v : α),
      (handleRateLimit op count).result = Except.ok v →
      (handleRateLimit op count).finalRetryCount = 0) ∧
    (∀ op : Nat → Except String α,
      (handleRateLimit op MAX_RATE_LIMIT_RETRIES).attempts = 0 ∧
      (handleRateLimit op MAX_RATE_LIMIT_RETRIES).result
        = Except.error rateLimitExceededMsg) := by
  constructor
  · intro op count v h
    exact rl_ok_finalRetryCount op _ _ _ _ v h
  · intro op
    constructor <;> simp [handleRateLimit, handleRateLimitLoop, MAX_RATE_LIMIT_RETRIES]

/-- C9 witness: an immediately succeeding operation resets the counter to
0, and any call entered with the counter at the cap performs zero
invocations. -/
theorem retryCounter_scope_spec_witness :
    (handleRateLimit (fun _ => (Except.ok 5 : Except String Nat)) 2).finalRetryCount = 0 ∧
    (handleRateLimit (fun _ => (Except.ok 5 : Except String Nat))
      MAX_RATE_LIMIT_RETRIES).attempts = 0 := by
  exact ⟨retryCounter_scope_spec.1 (fun _ => Except.ok 5) 2 5 (by decide),
    (retryCounter_scope_spec.2 (fun _ => Except.ok 5)).1⟩

/-- C1: under the precondition that the session has not timed out:
(a) with a stored access token that is not expired under the 60-second
buffer, `ensureAuthenticated` succeeds with zero refresh and zero login
calls (the only network operations on this path); (b) with the access
token absent or expired and a refresh token stored, it invokes `refresh()`
exactly once and never `login()`; (c) with no tokens stored and valid
configured credentials (and a successful login exchange), it invokes
`login()` exactly once, succeeds, and marks the session self-acquired so
that `cleanup()` will log out. -/
theorem ensureAuthenticated_spec (decode : List Char → Option JwtClaims)
    (cfg : Config) (now : Int) (s0 : SessionState)
    (ro : RefreshFetchOutcome) (lo : LoginFetchOutcome)
    (hnt : ¬ now - s0.lastActivityTime > SESSION_TIMEOUT_MS) :
    (∀ t, s0.token = some t → isTokenExpired decode now t 60 = false →
      (ensureAuthenticated decode cfg now s0 ro lo).result = Except.ok () ∧
      (ensureAuthenticated decode cfg now s0 ro lo).refreshCalls = 0 ∧
      (ensureAuthenticated decode cfg now s0 ro lo).loginCalls = 0) ∧
    (∀ rt, s0.refreshToken = some rt →
      (∀ t, s0.token = some t → isTokenExpired decode now t 60 = true) →
      (ensureAuthenticated decode cfg now s0 ro lo).refreshCalls = 1 ∧
      (ensureAuthenticated decode cfg now s0 ro lo).loginCalls = 0) ∧
    (s0.token = none → s0.refreshToken = none →
      ∀ toks, lo = LoginFetchOutcome.success toks →
      (∃ u, cfg.username = some u ∧ validateUsername u = Except.ok ()) →
      cfg.password.isSome = true →
      (ensureAuthenticated decode cfg now s0 ro lo).loginCalls = 1 ∧
      (ensureAuthenticated decode cfg now s0 ro lo).refreshCalls = 0 ∧
      (ensureAuthenticated decode cfg now s0 ro lo).result = Except.ok () ∧
      (ensureAuthenticated decode cfg now s0 ro lo).state.shouldLogout = true ∧
      cleanup (ensureAuthenticated decode cfg now s0 ro lo).state = true) := by
  refine ⟨?_, ?_, ?_⟩
  · intro t ht hvalid
    simp [ensureAuthenticated, checkSessionTimeout, hnt, ht, hvalid]
  · intro rt hrt hexp
    have hcond : (match s0.token with
        | some t => !isTokenExpired decode now t 60
        | none => false) = false := by
      cases hts : s0.token with
      | none => rfl
      | some t => simp [hexp t hts]
    cases ro with
    | httpError text =>
      simp [ensureAuthenticated, checkSessionTimeout, hnt, hcond, hrt, refreshModel]
    | success newToken =>
      simp [ensureAuthenticated, checkSessionTimeout, hnt, hcond, hrt, refreshModel]
  · intro ht hrt toks hlo hu hp
    obtain ⟨u, hun, hval⟩ := hu
    cases hps : cfg.password with
    | none => rw [hps] at hp; simp at hp
    | some pw =>
      subst hlo
      simp [ensureAuthenticated, checkSessionTimeout, hnt, ht, hrt, loginModel,
        hun, hps, hval, cleanup]

/-- C1 witness: (a) at a stored token whose payload decodes without an
expiration claim — zero network calls; (c) at a state with no tokens and
valid configured credentials — one login, self-acquired flag set, cleanup
logs out. -/
theorem ensureAuthenticated_spec_witness :
    (ensureAuthenticated (fun _ => some ⟨none⟩) ⟨some "admin", some "pw"⟩ 1000
        ⟨some "h.p.s", none, 0, false, 0⟩ (RefreshFetchOutcome.success "n")
        (LoginFetchOutcome.success ⟨"tk", "rk"⟩)).refreshCalls = 0 ∧
    (ensureAuthenticated (fun _ => some ⟨none⟩) ⟨some "admin", some "pw"⟩ 1000
        ⟨some "h.p.s", none, 0, false, 0⟩ (RefreshFetchOutcome.success "n")
        (LoginFetchOutcome.success ⟨"tk", "rk"⟩)).loginCalls = 0 ∧
    (ensureAuthenticated (fun _ => some ⟨none⟩) ⟨some "admin", some "pw"⟩ 1000
        ⟨none, none, 0, false, 0⟩ (RefreshFetchOutcome.success "n")
        (LoginFetchOutcome.success ⟨"tk", "rk"⟩)).loginCalls = 1 ∧
    cleanup (ensureAuthenticated (fun _ => some ⟨none⟩) ⟨some "admin", some "pw"⟩ 1000
        ⟨none, none, 0, false, 0⟩ (RefreshFetchOutcome.success "n")
        (LoginFetchOutcome.success ⟨"tk", "rk"⟩)).state = true := by
  have ha := (ensureAuthenticated_spec (fun _ => some ⟨none⟩) ⟨some "admin", some "pw"⟩
    1000 ⟨some "h.p.s", none, 0, false, 0⟩ (RefreshFetchOutcome.success "n")
    (LoginFetchOutcome.success ⟨"tk", "rk"⟩) (by decide)).1 "h.p.s" rfl (by decide)
  have hc := (ensureAuthenticated_spec (fun _ => some ⟨none⟩) ⟨some "admin", some "pw"⟩
    1000 ⟨none, none, 0, false, 0⟩ (RefreshFetchOutcome.success "n")
    (LoginFetchOutcome.success ⟨"tk", "rk"⟩) (by decide)).2.2 rfl rfl ⟨"tk", "rk"⟩ rfl
    ⟨"admin", rfl, by decide⟩ rfl
  exact ⟨ha.2.1, ha.2.2, hc.1, hc.2.2.2.2⟩

end LldapCli
